import Mathlib

/-!
Shallow embedding of the request-dispatch and page-persistence core of
`lsrv.go` (a minimal single-file wiki server).

The filesystem is modelled as an association list from file names to file
contents together with a `readOnly` flag (the one write-failure mode the
model exposes) and a log of write events recording the permission bits
passed to `os.WriteFile`.  Go byte slices are modelled as `String`
(a sequence of characters standing for the byte sequence).
HTTP responses are modelled as an inductive `Response` value; the serving
layer, TLS setup and static-file fallback are out of scope, as in the spec.
-/

namespace Lsrv

/-- The `Page` struct of lsrv.go: `Title string; Body []byte`. -/
structure Page where
  Title : String
  Body : String
deriving DecidableEq, Repr

/-- Model of the filesystem state visible to lsrv.go: named files with
string contents, a `readOnly` flag (write operations fail when set), and a
log of successful `os.WriteFile` events `(name, content, perm)`. -/
structure FS where
  files : List (String × String)
  readOnly : Bool
  log : List (String × String × Nat)
deriving DecidableEq, Repr

/-- Association-list lookup used by the filesystem model; the most recent
write of a name shadows older entries. -/
def lookupList : List (String × String) → String → Option String
  | [], _ => none
  | (k, v) :: rest, name => if name = k then some v else lookupList rest name

/-- Contents of a file in the modelled filesystem, if it exists. -/
def FS.lookup (fs : FS) (name : String) : Option String :=
  lookupList fs.files name

/-- Model of `os.WriteFile(name, content, perm)`: creates the file if
absent and truncates it if present; fails when the filesystem is
read-only.  A successful write is prepended to both the file table and the
write log. -/
def FS.writeFile (fs : FS) (name content : String) (perm : Nat) :
    Except String FS :=
  if fs.readOnly then
    Except.error ("open " ++ name ++ ": permission denied")
  else
    Except.ok
      { files := (name, content) :: fs.files
        readOnly := fs.readOnly
        log := (name, content, perm) :: fs.log }

/-- Model of `os.ReadFile(name)`: the file contents, or an error when the
file does not exist (the only read-failure mode of the model). -/
def FS.readFile (fs : FS) (name : String) : Except String String :=
  match fs.lookup name with
  | some c => Except.ok c
  | none => Except.error ("open " ++ name ++ ": no such file or directory")

/-- lsrv.go line 87-90:
`func (p *Page) save() error { filename := p.Title + ".txt"; return os.WriteFile(filename, p.Body, 0600) }`. -/
def Page.save (p : Page) (fs : FS) : Except String FS :=
  let filename := p.Title ++ ".txt"
  fs.writeFile filename p.Body 0o600

/-- lsrv.go line 92-99: `loadPage(title)` reads `title + ".txt"` and on
success returns `&Page{Title: title, Body: body}`; any read error makes it
return a nil page and the error, modelled as `none`. -/
def loadPage (title : String) (fs : FS) : Option Page :=
  let filename := title ++ ".txt"
  match fs.readFile filename with
  | Except.error _ => none
  | Except.ok body => some { Title := title, Body := body }

/-- Submitted form data, modelled as an association list of field names to
values. -/
def Form := List (String × String)

/-- Model of `r.FormValue(key)`: the first value for the key, or the empty
string when the form holds no such field. -/
def formValue (form : Form) (key : String) : String :=
  match lookupList form key with
  | some v => v
  | none => ""

/-- The HTTP response a handler produces: `http.NotFound`, an
`http.Redirect` with a location (status 302 / StatusFound), an
`http.Error` with a message (status 500), or a rendered HTML body
(status 200). -/
inductive Response where
  | notFound
  | redirect (location : String)
  | serverError (msg : String)
  | html (out : String)
deriving DecidableEq, Repr

/-- The HTTP status code each `Response` constructor stands for. -/
def Response.status : Response → Nat
  | Response.notFound => 404
  | Response.redirect _ => 302
  | Response.serverError _ => 500
  | Response.html _ => 200

/-- One escaped character of Go html/template's HTML escaping: `&`, `'`
(U+0027), `<`, `>` and `"` (U+0022) become character references, every
other character stands for itself. -/
def escChar (c : Char) : List Char :=
  if c = '&' then ['&', 'a', 'm', 'p', ';']
  else if c = Char.ofNat 39 then ['&', '#', '3', '9', ';']
  else if c = '<' then ['&', 'l', 't', ';']
  else if c = '>' then ['&', 'g', 't', ';']
  else if c = Char.ofNat 34 then ['&', '#', '3', '4', ';']
  else [c]

/-- HTML escaping of a whole string, as Go html/template applies to
interpolated data in text/RCDATA context. -/
def htmlEscape (s : String) : String :=
  String.mk (s.data.map escChar).flatten

/-- lsrv.go line 148-154: the source text of the `edit.html` template
(written to disk by `setup`; `\x7b`/`\x7d` are the literal braces of the
template actions). -/
def edit_html : String :=
  "\n<h1>Editing \x7b\x7b.Title\x7d\x7d</h1>\n\n<form action=\"/save/\x7b\x7b.Title\x7d\x7d\" method=\"POST\">\n<div><textarea name=\"body\" rows=\"20\" cols=\"80\">\x7b\x7bprintf \"%s\" .Body\x7d\x7d</textarea></div>\n<div><input type=\"submit\" value=\"Save\"></div>\n</form>"

/-- lsrv.go line 156-160: the source text of the `view.html` template. -/
def view_html : String :=
  "\n\t<h1>\x7b\x7b.Title\x7d\x7d</h1>\n<p>[<a href=\"/edit/\x7b\x7b.Title\x7d\x7d\">edit</a>]</p>\n<div>\x7b\x7bprintf \"%s\" .Body\x7d\x7d</div>\n"

/-- Execution of the `edit.html` template on a page, modelling Go
html/template: each interpolation is replaced by the HTML-escaped datum
(`\x7b\x7bprintf "%s" .Body\x7d\x7d` prints the body bytes as a string,
then the contextual auto-escaper HTML-escapes them; the title in the URL
attribute additionally passes Go's URL escaper, which is the identity on
the alphanumeric titles the router admits). -/
def editHtmlOut (p : Page) : String :=
  "\n<h1>Editing " ++ htmlEscape p.Title ++
    "</h1>\n\n<form action=\"/save/" ++ htmlEscape p.Title ++
    "\" method=\"POST\">\n<div><textarea name=\"body\" rows=\"20\" cols=\"80\">" ++
    htmlEscape p.Body ++
    "</textarea></div>\n<div><input type=\"submit\" value=\"Save\"></div>\n</form>"

/-- Execution of the `view.html` template on a page (same conventions as
`editHtmlOut`). -/
def viewHtmlOut (p : Page) : String :=
  "\n\t<h1>" ++ htmlEscape p.Title ++
    "</h1>\n<p>[<a href=\"/edit/" ++ htmlEscape p.Title ++
    "\">edit</a>]</p>\n<div>" ++ htmlEscape p.Body ++ "</div>\n"

/-- Model of `templates.ExecuteTemplate(w, name, p)` for the template set
parsed from `edit.html` and `view.html`: the rendered HTML for the two
defined template names, an error for any other name. -/
def executeTemplate (name : String) (p : Page) : Except String String :=
  if name = "edit.html" then Except.ok (editHtmlOut p)
  else if name = "view.html" then Except.ok (viewHtmlOut p)
  else Except.error ("html/template: " ++ name ++ " is undefined")

/-- lsrv.go line 129-134: `renderTemplate` executes `tmpl + ".html"` on
the page and turns an execution error into an `http.Error` with status
500. -/
def renderTemplate (tmpl : String) (p : Page) : Response :=
  match executeTemplate (tmpl ++ ".html") p with
  | Except.error e => Response.serverError e
  | Except.ok out => Response.html out

/-- lsrv.go line 101-108: the view handler.  Handlers take the form data
and filesystem and return the response together with the (possibly
updated) filesystem. -/
def viewHandler (title : String) (_form : Form) (fs : FS) : Response × FS :=
  match loadPage title fs with
  | none => (Response.redirect ("/edit/" ++ title), fs)
  | some p => (renderTemplate "view" p, fs)

/-- lsrv.go line 110-116: the edit handler; a failed load is replaced by
`&Page{Title: title}` whose body is the zero value (empty). -/
def editHandler (title : String) (_form : Form) (fs : FS) : Response × FS :=
  match loadPage title fs with
  | none => (renderTemplate "edit" { Title := title, Body := "" }, fs)
  | some p => (renderTemplate "edit" p, fs)

/-- lsrv.go line 118-127: the save handler. -/
def saveHandler (title : String) (form : Form) (fs : FS) : Response × FS :=
  let body := formValue form "body"
  let p : Page := { Title := title, Body := body }
  match p.save fs with
  | Except.error e => (Response.serverError e, fs)
  | Except.ok fs2 => (Response.redirect ("/view/" ++ title), fs2)

/-- Strips a literal character sequence from the front of a list:
`dropLit lit cs = some rest` exactly when `cs = lit ++ rest`. -/
def dropLit : List Char → List Char → Option (List Char)
  | [], cs => some cs
  | _ :: _, [] => none
  | l :: ls, c :: cs => if c = l then dropLit ls cs else none

/-- The alternation `(edit|save|view)` of the compiled `validPath` regexp:
strips one of the three verb literals from the front of the character
list. -/
def takeVerb (cs : List Char) : Option (String × List Char) :=
  match dropLit "edit".data cs with
  | some rest => some ("edit", rest)
  | none =>
    match dropLit "save".data cs with
    | some rest => some ("save", rest)
    | none =>
      match dropLit "view".data cs with
      | some rest => some ("view", rest)
      | none => none

/-- lsrv.go line 33 and 138: `validPath.FindStringSubmatch(path)` for
`validPath = regexp.MustCompile("^/(edit|save|view)/([a-zA-Z0-9]+)$")`.
Returns the two captured submatches `(verb, title)` when the whole path
matches the anchored pattern, `none` otherwise. -/
def validPathMatch (path : String) : Option (String × String) :=
  match dropLit ['/'] path.data with
  | none => none
  | some cs =>
    match takeVerb cs with
    | none => none
    | some (verb, rest) =>
      match dropLit ['/'] rest with
      | none => none
      | some ts =>
        if !ts.isEmpty && ts.all Char.isAlphanum then
          some (verb, String.mk ts)
        else none

/-- lsrv.go line 136-145: `makeHandler` wraps a handler; on a path the
regexp rejects it calls `http.NotFound` and returns without running the
handler, on a match it invokes the handler with the captured title
`m[2]`. -/
def makeHandler (fn : String → Form → FS → Response × FS)
    (path : String) (form : Form) (fs : FS) : Response × FS :=
  match validPathMatch path with
  | none => (Response.notFound, fs)
  | some (_, title) => fn title form fs

/-- The language of the route pattern, written declaratively: the spec's
`^/(view|edit|save)/([a-zA-Z0-9]+)$`. -/
def specMatches (path : String) : Prop :=
  ∃ v t : String, (v = "view" ∨ v = "edit" ∨ v = "save") ∧
    t ≠ "" ∧ t.data.all Char.isAlphanum = true ∧
    path = "/" ++ v ++ "/" ++ t

/-- lsrv.go line 171-176: `makeFile` calls `os.Create(name)` (which
creates the file or truncates an existing one) and, only when that
succeeded, writes the content; both the create error and the write error
are discarded, so the function is total and reports nothing. -/
def makeFile (fs : FS) (name content : String) : FS :=
  if fs.readOnly then fs
  else { files := (name, content) :: fs.files
         readOnly := fs.readOnly
         log := fs.log }

/-- lsrv.go line 163-169: `setup` materialises the two template source
files at startup. -/
def setup (fs : FS) : FS :=
  makeFile (makeFile fs "edit.html" edit_html) "view.html" view_html

/-! ## Helper lemmas -/

theorem dropLit_eq_some {ls cs rest : List Char} :
    dropLit ls cs = some rest ↔ cs = ls ++ rest := by
  induction ls generalizing cs with
  | nil => simp [dropLit]
  | cons l ls ih =>
    cases cs with
    | nil => simp [dropLit]
    | cons c cs =>
      by_cases h : c = l
      · subst h
        simp [dropLit, ih]
      · simp [dropLit, h]

theorem edit_data : ("edit" : String).data = ['e', 'd', 'i', 't'] := rfl

theorem save_data : ("save" : String).data = ['s', 'a', 'v', 'e'] := rfl

theorem view_data : ("view" : String).data = ['v', 'i', 'e', 'w'] := rfl

theorem slash_data : ("/" : String).data = ['/'] := rfl

theorem takeVerb_eq_some {cs : List Char} {v : String} {rest : List Char} :
    takeVerb cs = some (v, rest) ↔
      ((v = "edit" ∨ v = "save" ∨ v = "view") ∧ cs = v.data ++ rest) := by
  constructor
  · intro h
    unfold takeVerb at h
    rcases h1 : dropLit "edit".data cs with _ | r1 <;> simp only [h1] at h
    · rcases h2 : dropLit "save".data cs with _ | r2 <;> simp only [h2] at h
      · rcases h3 : dropLit "view".data cs with _ | r3 <;> simp only [h3] at h
        · cases h
        · simp only [Option.some.injEq, Prod.mk.injEq] at h
          obtain ⟨hv, hr⟩ := h
          subst hv; subst hr
          exact ⟨Or.inr (Or.inr rfl), dropLit_eq_some.mp h3⟩
      · simp only [Option.some.injEq, Prod.mk.injEq] at h
        obtain ⟨hv, hr⟩ := h
        subst hv; subst hr
        exact ⟨Or.inr (Or.inl rfl), dropLit_eq_some.mp h2⟩
    · simp only [Option.some.injEq, Prod.mk.injEq] at h
      obtain ⟨hv, hr⟩ := h
      subst hv; subst hr
      exact ⟨Or.inl rfl, dropLit_eq_some.mp h1⟩
  · rintro ⟨hv | hv | hv, hcs⟩ <;> subst hv <;> subst hcs <;>
      simp [takeVerb, dropLit, edit_data, save_data, view_data]

theorem validPathMatch_eq_some {path v t : String} :
    validPathMatch path = some (v, t) ↔
      ((v = "edit" ∨ v = "save" ∨ v = "view") ∧ t ≠ "" ∧
        t.data.all Char.isAlphanum = true ∧ path = "/" ++ v ++ "/" ++ t) := by
  constructor
  · intro h
    unfold validPathMatch at h
    rcases h1 : dropLit ['/'] path.data with _ | cs <;> simp only [h1] at h
    · cases h
    · rcases h2 : takeVerb cs with _ | ⟨verb, rest⟩ <;> simp only [h2] at h
      · cases h
      · rcases h3 : dropLit ['/'] rest with _ | ts <;> simp only [h3] at h
        · cases h
        · by_cases h4 : (!ts.isEmpty && ts.all Char.isAlphanum) = true
          · rw [if_pos h4] at h
            simp only [Option.some.injEq, Prod.mk.injEq] at h
            obtain ⟨hv, ht⟩ := h
            subst hv
            obtain ⟨hverb, hcs⟩ := takeVerb_eq_some.mp h2
            rw [Bool.and_eq_true, Bool.not_eq_true'] at h4
            obtain ⟨hne, hall⟩ := h4
            subst ht
            refine ⟨hverb, ?_, hall, ?_⟩
            · simpa [ne_eq, String.ext_iff] using List.isEmpty_eq_false.mp hne
            · have hrest := dropLit_eq_some.mp h3
              have hpath := dropLit_eq_some.mp h1
              apply String.ext_iff.mpr
              rw [hpath, hcs, hrest]
              simp [String.data_append, slash_data]
          · rw [if_neg h4] at h
            cases h
  · rintro ⟨hverb, hne, hall, hpath⟩
    have hne' : t.data ≠ [] := by
      simpa [ne_eq, String.ext_iff] using hne
    have hdata : path.data = '/' :: (v.data ++ '/' :: t.data) := by
      rw [hpath]
      simp [String.data_append, slash_data]
    have h1 : dropLit ['/'] path.data = some (v.data ++ '/' :: t.data) := by
      rw [hdata]
      simp [dropLit]
    have h2 : takeVerb (v.data ++ '/' :: t.data) = some (v, '/' :: t.data) :=
      takeVerb_eq_some.mpr ⟨hverb, rfl⟩
    have h3 : dropLit ['/'] ('/' :: t.data) = some t.data := by
      simp [dropLit]
    have h4 : (!t.data.isEmpty && t.data.all Char.isAlphanum) = true := by
      simp [hall, List.isEmpty_eq_false, hne']
    simp only [validPathMatch, h1, h2, h3, h4, if_true]

theorem specMatches_iff_isSome {path : String} :
    specMatches path ↔ (validPathMatch path).isSome = true := by
  constructor
  · rintro ⟨v, t, hv, hne, hall, hpath⟩
    have hv' : v = "edit" ∨ v = "save" ∨ v = "view" := by tauto
    rw [validPathMatch_eq_some.mpr ⟨hv', hne, hall, hpath⟩]
    rfl
  · intro h
    rcases hm : validPathMatch path with _ | ⟨v, t⟩
    · rw [hm] at h; cases h
    · obtain ⟨hv, hne, hall, hpath⟩ := validPathMatch_eq_some.mp hm
      exact ⟨v, t, by tauto, hne, hall, hpath⟩

theorem renderTemplate_view (p : Page) :
    renderTemplate "view" p = Response.html (viewHtmlOut p) := rfl

theorem renderTemplate_edit (p : Page) :
    renderTemplate "edit" p = Response.html (editHtmlOut p) := rfl

theorem loadPage_some_title {title : String} {fs : FS} {p : Page}
    (h : loadPage title fs = some p) : p.Title = title := by
  simp only [loadPage] at h
  split at h
  · cases h
  · cases h
    rfl

theorem escChar_no_angle (a c : Char) (h : c ∈ escChar a) :
    c ≠ '<' ∧ c ≠ '>' := by
  unfold escChar at h
  split_ifs at h with h1 h2 h3 h4 h5
  · fin_cases h <;> decide
  · fin_cases h <;> decide
  · fin_cases h <;> decide
  · fin_cases h <;> decide
  · fin_cases h <;> decide
  · simp only [List.mem_singleton] at h
    subst h
    exact ⟨h3, h4⟩

theorem htmlEscape_no_angle (s : String) (c : Char)
    (h : c ∈ (htmlEscape s).data) : c ≠ '<' ∧ c ≠ '>' := by
  have h2 : c ∈ (s.data.map escChar).flatten := h
  rw [List.mem_flatten] at h2
  obtain ⟨l, hl, hc⟩ := h2
  rw [List.mem_map] at hl
  obtain ⟨a, _, rfl⟩ := hl
  exact escChar_no_angle a c hc

/-! ## Claim theorems -/

/-- C1: for every title matching `[a-zA-Z0-9]+` and every body, `save` on
`Page(t, b)` followed by `load(t)` succeeds and returns a page whose body
is exactly `b` (the filesystem must accept the write, i.e. not be
read-only, for the save to be the successful one the claim describes). -/
theorem c1_save_load_roundtrip (t b : String) (fs : FS)
    (_ht : t ≠ "" ∧ t.data.all Char.isAlphanum = true)
    (hw : fs.readOnly = false) :
    ∃ fs2, (Page.mk t b).save fs = Except.ok fs2 ∧
      loadPage t fs2 = some (Page.mk t b) := by
  refine ⟨{ files := (t ++ ".txt", b) :: fs.files
            readOnly := fs.readOnly
            log := (t ++ ".txt", b, 0o600) :: fs.log }, ?_, ?_⟩
  · simp [Page.save, FS.writeFile, hw]
  · simp [loadPage, FS.readFile, FS.lookup, lookupList]

/-- Witness for C1 at title `Test`, body `hello world`. -/
theorem c1_save_load_roundtrip_witness :
    (("Test" : String) ≠ "" ∧ "Test".data.all Char.isAlphanum = true) ∧
    (FS.mk [] false []).readOnly = false ∧
    ∃ fs2, (Page.mk "Test" "hello world").save (FS.mk [] false []) = Except.ok fs2 ∧
      loadPage "Test" fs2 = some (Page.mk "Test" "hello world") :=
  ⟨⟨by decide, by decide⟩, rfl,
    c1_save_load_roundtrip "Test" "hello world" (FS.mk [] false [])
      ⟨by decide, by decide⟩ rfl⟩

/-- C2: a path outside the language of `^/(view|edit|save)/([a-zA-Z0-9]+)$`
makes `makeHandler` answer 404 without running the wrapped handler (the
result is the same for every handler and leaves the state untouched); a
path inside the language runs the handler on the extracted title. -/
theorem c2_router_guard (path : String)
    (fn : String → Form → FS → Response × FS) (form : Form) (fs : FS) :
    (¬ specMatches path →
      makeHandler fn path form fs = (Response.notFound, fs) ∧
      (makeHandler fn path form fs).1.status = 404)
  ∧ (∀ v t : String, (v = "view" ∨ v = "edit" ∨ v = "save") → t ≠ "" →
      t.data.all Char.isAlphanum = true → path = "/" ++ v ++ "/" ++ t →
      makeHandler fn path form fs = fn t form fs) := by
  constructor
  · intro hns
    rcases hm : validPathMatch path with _ | ⟨v, t⟩
    · constructor
      · simp [makeHandler, hm]
      · simp [makeHandler, hm, Response.status]
    · exact absurd (specMatches_iff_isSome.mpr (by simp [hm])) hns
  · intro v t hv hne hall hpath
    have hv' : v = "edit" ∨ v = "save" ∨ v = "view" := by tauto
    have hm := validPathMatch_eq_some.mpr ⟨hv', hne, hall, hpath⟩
    simp [makeHandler, hm]

/-- Witness for C2: the traversal path `/etc/passwd` is rejected with 404
and the matching path `/view/Abc` reaches the handler with title `Abc`. -/
theorem c2_router_guard_witness :
    makeHandler (fun t _ fs => (Response.html t, fs)) "/etc/passwd" []
        (FS.mk [] false []) = (Response.notFound, FS.mk [] false []) ∧
    makeHandler (fun t _ fs => (Response.html t, fs)) "/view/Abc" []
        (FS.mk [] false []) = (Response.html "Abc", FS.mk [] false []) := by
  constructor
  · exact ((c2_router_guard "/etc/passwd" (fun t _ fs => (Response.html t, fs))
      [] (FS.mk [] false [])).1
      (fun hs => absurd (specMatches_iff_isSome.mp hs) (by decide))).1
  · exact (c2_router_guard "/view/Abc" (fun t _ fs => (Response.html t, fs))
      [] (FS.mk [] false [])).2 "view" "Abc" (Or.inl rfl)
      (by decide) (by decide) (by decide)

/-- C3: the save handler persists `Page(title, formValue "body")`; a failed
save yields a 500 with the underlying error text, no redirect and an
unchanged state, a successful save yields a 302 redirect to
`/view/<title>` with the updated state. -/
theorem c3_save_handler (title : String) (form : Form) (fs : FS) :
    (∀ e, (Page.mk title (formValue form "body")).save fs = Except.error e →
      saveHandler title form fs = (Response.serverError e, fs) ∧
      (Response.serverError e).status = 500 ∧
      ∀ loc, (saveHandler title form fs).1 ≠ Response.redirect loc)
  ∧ (∀ fs2, (Page.mk title (formValue form "body")).save fs = Except.ok fs2 →
      saveHandler title form fs = (Response.redirect ("/view/" ++ title), fs2) ∧
      (Response.redirect ("/view/" ++ title)).status = 302) := by
  constructor
  · intro e he
    refine ⟨?_, rfl, ?_⟩
    · simp [saveHandler, he]
    · intro loc
      simp [saveHandler, he]
  · intro fs2 hok
    exact ⟨by simp [saveHandler, hok], rfl⟩

/-- Witness for C3: a read-only store produces the 500, a writable store
produces the redirect. -/
theorem c3_save_handler_witness :
    ((Page.mk "T" (formValue [] "body")).save (FS.mk [] true []) =
      Except.error "open T.txt: permission denied") ∧
    saveHandler "T" [] (FS.mk [] true []) =
      (Response.serverError "open T.txt: permission denied", FS.mk [] true []) ∧
    ((Page.mk "T" (formValue [("body", "hi")] "body")).save (FS.mk [] false []) =
      Except.ok (FS.mk [("T.txt", "hi")] false [("T.txt", "hi", 0o600)])) ∧
    saveHandler "T" [("body", "hi")] (FS.mk [] false []) =
      (Response.redirect "/view/T",
        FS.mk [("T.txt", "hi")] false [("T.txt", "hi", 0o600)]) := by
  refine ⟨rfl, ?_, rfl, ?_⟩
  · exact ((c3_save_handler "T" [] (FS.mk [] true [])).1 _ rfl).1
  · exact ((c3_save_handler "T" [("body", "hi")] (FS.mk [] false [])).2 _ rfl).1

/-- C4: when the load fails the view handler answers a 302 redirect to
`/edit/<title>` and renders nothing; when the load succeeds it renders the
`view` template on the loaded page. -/
theorem c4_view_handler (title : String) (form : Form) (fs : FS) :
    (loadPage title fs = none →
      viewHandler title form fs = (Response.redirect ("/edit/" ++ title), fs) ∧
      (Response.redirect ("/edit/" ++ title)).status = 302)
  ∧ (∀ p, loadPage title fs = some p →
      viewHandler title form fs = (Response.html (viewHtmlOut p), fs)) := by
  constructor
  · intro h
    exact ⟨by simp [viewHandler, h], rfl⟩
  · intro p h
    simp [viewHandler, h, renderTemplate_view]

/-- Witness for C4: a missing `NoSuchPage.txt` redirects, an existing
`Test.txt` renders. -/
theorem c4_view_handler_witness :
    loadPage "NoSuchPage" (FS.mk [("Test.txt", "hi")] false []) = none ∧
    viewHandler "NoSuchPage" [] (FS.mk [("Test.txt", "hi")] false []) =
      (Response.redirect "/edit/NoSuchPage", FS.mk [("Test.txt", "hi")] false []) ∧
    loadPage "Test" (FS.mk [("Test.txt", "hi")] false []) =
      some (Page.mk "Test" "hi") ∧
    viewHandler "Test" [] (FS.mk [("Test.txt", "hi")] false []) =
      (Response.html (viewHtmlOut (Page.mk "Test" "hi")),
        FS.mk [("Test.txt", "hi")] false []) := by
  refine ⟨by decide, ?_, by decide, ?_⟩
  · exact ((c4_view_handler "NoSuchPage" []
      (FS.mk [("Test.txt", "hi")] false [])).1 (by decide)).1
  · exact (c4_view_handler "Test" [] (FS.mk [("Test.txt", "hi")] false [])).2
      (Page.mk "Test" "hi") (by decide)

/-- C5: the edit handler never surfaces a load failure: a failed load is
replaced by `Page(title, "")`, and in every case the response is a render
of the `edit` template on a page carrying the requested title. -/
theorem c5_edit_handler (title : String) (form : Form) (fs : FS) :
    (loadPage title fs = none →
      editHandler title form fs =
        (Response.html (editHtmlOut (Page.mk title "")), fs))
  ∧ (∃ p : Page, p.Title = title ∧
      editHandler title form fs = (Response.html (editHtmlOut p), fs)) := by
  constructor
  · intro h
    simp [editHandler, h, renderTemplate_edit]
  · rcases hm : loadPage title fs with _ | p
    · exact ⟨Page.mk title "", rfl, by simp [editHandler, hm, renderTemplate_edit]⟩
    · exact ⟨p, loadPage_some_title hm, by simp [editHandler, hm, renderTemplate_edit]⟩

/-- Witness for C5: editing the absent title `Fresh` renders the empty
page. -/
theorem c5_edit_handler_witness :
    loadPage "Fresh" (FS.mk [] false []) = none ∧
    editHandler "Fresh" [] (FS.mk [] false []) =
      (Response.html (editHtmlOut (Page.mk "Fresh" "")), FS.mk [] false []) :=
  ⟨by decide,
    (c5_edit_handler "Fresh" [] (FS.mk [] false [])).1 (by decide)⟩

/-- C6: a successful save writes exactly `page.Body` to the file
`page.Title + ".txt"` with permission 0600 (written to the log of
`os.WriteFile` events), creating or truncating it so the file afterwards
holds exactly the body, leaving every other file unchanged; the file
location is determined by the title alone, whatever the body. -/
theorem c6_page_save (p : Page) (fs : FS) (hw : fs.readOnly = false) :
    ∃ fs2, p.save fs = Except.ok fs2 ∧
      fs2.lookup (p.Title ++ ".txt") = some p.Body ∧
      fs2.log = (p.Title ++ ".txt", p.Body, 0o600) :: fs.log ∧
      (∀ name, name ≠ p.Title ++ ".txt" → fs2.lookup name = fs.lookup name) ∧
      (∀ q : Page, q.Title = p.Title → ∀ gs : FS, gs.readOnly = false →
        ∃ gs2, q.save gs = Except.ok gs2 ∧
          gs2.log.head? = some (p.Title ++ ".txt", q.Body, 0o600)) := by
  refine ⟨{ files := (p.Title ++ ".txt", p.Body) :: fs.files
            readOnly := fs.readOnly
            log := (p.Title ++ ".txt", p.Body, 0o600) :: fs.log }, ?_, ?_, rfl, ?_, ?_⟩
  · simp [Page.save, FS.writeFile, hw]
  · simp [FS.lookup, lookupList]
  · intro name hne
    simp [FS.lookup, lookupList, hne]
  · intro q hq gs hgs
    refine ⟨{ files := (q.Title ++ ".txt", q.Body) :: gs.files
              readOnly := gs.readOnly
              log := (q.Title ++ ".txt", q.Body, 0o600) :: gs.log }, ?_, ?_⟩
    · simp [Page.save, FS.writeFile, hgs]
    · simp [hq]

/-- Witness for C6 at a store that already holds an old `T.txt` and an
unrelated `Z.txt`. -/
theorem c6_page_save_witness :
    (FS.mk [("T.txt", "old"), ("Z.txt", "z")] false []).readOnly = false ∧
    ∃ fs2, (Page.mk "T" "B").save (FS.mk [("T.txt", "old"), ("Z.txt", "z")] false []) =
        Except.ok fs2 ∧
      fs2.lookup ((Page.mk "T" "B").Title ++ ".txt") = some (Page.mk "T" "B").Body ∧
      fs2.log = ((Page.mk "T" "B").Title ++ ".txt", (Page.mk "T" "B").Body, 0o600) ::
        (FS.mk [("T.txt", "old"), ("Z.txt", "z")] false []).log ∧
      (∀ name, name ≠ (Page.mk "T" "B").Title ++ ".txt" →
        fs2.lookup name =
          (FS.mk [("T.txt", "old"), ("Z.txt", "z")] false []).lookup name) ∧
      (∀ q : Page, q.Title = (Page.mk "T" "B").Title →
        ∀ gs : FS, gs.readOnly = false →
          ∃ gs2, q.save gs = Except.ok gs2 ∧
            gs2.log.head? = some ((Page.mk "T" "B").Title ++ ".txt", q.Body, 0o600)) :=
  ⟨rfl, c6_page_save (Page.mk "T" "B")
    (FS.mk [("T.txt", "old"), ("Z.txt", "z")] false []) rfl⟩

/-- C7 as stated is false: `makeFile` calls `os.Create`, which truncates
an existing file, so a pre-existing `edit.html` with contents `custom`
does not keep its contents across the bootstrap step. -/
theorem c7_counterexample :
    ¬ ((setup (FS.mk [("edit.html", "custom")] false [])).lookup "edit.html" =
      some "custom") := by
  decide

/-- C7 amended: at startup the two template files are written
unconditionally — on a writable filesystem `setup` leaves `edit.html` and
`view.html` holding exactly the built-in template sources, replacing any
pre-existing contents; only when creation fails (read-only filesystem) is
the old file left unchanged. -/
theorem c7_amended_setup_overwrites (fs : FS) (hw : fs.readOnly = false) :
    (setup fs).lookup "edit.html" = some edit_html ∧
    (setup fs).lookup "view.html" = some view_html ∧
    (setup fs).files = ("view.html", view_html) :: ("edit.html", edit_html) :: fs.files := by
  have h1 : ("edit.html" : String) ≠ "view.html" := by decide
  refine ⟨?_, ?_, ?_⟩ <;> simp [setup, makeFile, hw, FS.lookup, lookupList, h1]

/-- Witness for C7's amended claim: a pre-existing `edit.html` holding
`custom` ends up holding the built-in template source. -/
theorem c7_amended_setup_overwrites_witness :
    (FS.mk [("edit.html", "custom")] false []).readOnly = false ∧
    (setup (FS.mk [("edit.html", "custom")] false [])).lookup "edit.html" =
      some edit_html ∧
    (setup (FS.mk [("edit.html", "custom")] false [])).lookup "view.html" =
      some view_html ∧
    (setup (FS.mk [("edit.html", "custom")] false [])).files =
      ("view.html", view_html) :: ("edit.html", edit_html) ::
        (FS.mk [("edit.html", "custom")] false []).files :=
  ⟨rfl, c7_amended_setup_overwrites (FS.mk [("edit.html", "custom")] false []) rfl⟩

/-- C8: rendering substitutes the page's title and body into the named
template with both interpolations HTML-escaped; the escaped body (and
title) contain no `<` or `>` character, so no byte sequence stored in a
body can be emitted as raw HTML markup. -/
theorem c8_render_escapes_body (p : Page) :
    renderTemplate "view" p =
      Response.html ("\n\t<h1>" ++ htmlEscape p.Title ++
        "</h1>\n<p>[<a href=\"/edit/" ++ htmlEscape p.Title ++
        "\">edit</a>]</p>\n<div>" ++ htmlEscape p.Body ++ "</div>\n")
  ∧ renderTemplate "edit" p =
      Response.html ("\n<h1>Editing " ++ htmlEscape p.Title ++
        "</h1>\n\n<form action=\"/save/" ++ htmlEscape p.Title ++
        "\" method=\"POST\">\n<div><textarea name=\"body\" rows=\"20\" cols=\"80\">" ++
        htmlEscape p.Body ++
        "</textarea></div>\n<div><input type=\"submit\" value=\"Save\"></div>\n</form>")
  ∧ (∀ c ∈ (htmlEscape p.Body).data, c ≠ '<' ∧ c ≠ '>')
  ∧ (∀ c ∈ (htmlEscape p.Title).data, c ≠ '<' ∧ c ≠ '>') :=
  ⟨rfl, rfl,
    fun c hc => htmlEscape_no_angle p.Body c hc,
    fun c hc => htmlEscape_no_angle p.Title c hc⟩

/-- Witness for C8 at the body `<script>`: its escape contains the
character `s`, which is neither `<` nor `>`, and the whole escape is
`&lt;script&gt;`. -/
theorem c8_render_escapes_body_witness :
    's' ∈ (htmlEscape (Page.mk "T" "<script>").Body).data ∧
    ('s' ≠ '<' ∧ 's' ≠ '>') ∧
    htmlEscape (Page.mk "T" "<script>").Body = "&lt;script&gt;" :=
  ⟨by decide,
    (c8_render_escapes_body (Page.mk "T" "<script>")).2.2.1 's' (by decide),
    by decide⟩

/-- C9: a save request whose form holds no `body` field saves the empty
body: the file `<title>.txt` ends up with zero-length content and the
handler answers the success redirect to `/view/<title>`. -/
theorem c9_save_missing_body (title : String) (form : Form) (fs : FS)
    (hb : lookupList form "body" = none) (hw : fs.readOnly = false) :
    ∃ fs2, saveHandler title form fs =
        (Response.redirect ("/view/" ++ title), fs2) ∧
      fs2.lookup (title ++ ".txt") = some "" := by
  have hfv : formValue form "body" = "" := by simp [formValue, hb]
  refine ⟨{ files := (title ++ ".txt", "") :: fs.files
            readOnly := fs.readOnly
            log := (title ++ ".txt", "", 0o600) :: fs.log }, ?_, ?_⟩
  · simp [saveHandler, hfv, Page.save, FS.writeFile, hw]
  · simp [FS.lookup, lookupList]

/-- Witness for C9: posting an empty form to `/save/T`. -/
theorem c9_save_missing_body_witness :
    lookupList ([] : Form) "body" = none ∧
    (FS.mk [] false []).readOnly = false ∧
    ∃ fs2, saveHandler "T" [] (FS.mk [] false []) =
        (Response.redirect "/view/T", fs2) ∧
      fs2.lookup "T.txt" = some "" :=
  ⟨rfl, rfl, c9_save_missing_body "T" [] (FS.mk [] false []) rfl rfl⟩

/-- C10: the template bootstrap never reports failure: `setup` is a total
function of the filesystem; when writes fail (read-only filesystem) it
returns the state unchanged and signals nothing, when they succeed it has
written the two template files, and in both cases startup proceeds with
the same read-only flag and write log. -/
theorem c10_setup_total (fs : FS) :
    (fs.readOnly = true → setup fs = fs)
  ∧ (fs.readOnly = false →
      (setup fs).files =
        ("view.html", view_html) :: ("edit.html", edit_html) :: fs.files)
  ∧ (setup fs).readOnly = fs.readOnly
  ∧ (setup fs).log = fs.log := by
  refine ⟨?_, ?_, ?_, ?_⟩
  · intro h
    simp [setup, makeFile, h]
  · intro h
    simp [setup, makeFile, h]
  · rcases h : fs.readOnly <;> simp [setup, makeFile, h]
  · rcases h : fs.readOnly <;> simp [setup, makeFile, h]

/-- Witness for C10 on a read-only and on a writable filesystem. -/
theorem c10_setup_total_witness :
    (FS.mk [] true []).readOnly = true ∧
    setup (FS.mk [] true []) = FS.mk [] true [] ∧
    (FS.mk [] false []).readOnly = false ∧
    (setup (FS.mk [] false [])).files =
      [("view.html", view_html), ("edit.html", edit_html)] :=
  ⟨rfl, (c10_setup_total (FS.mk [] true [])).1 rfl, rfl,
    (c10_setup_total (FS.mk [] false [])).2.1 rfl⟩

end Lsrv
